import Mathlib

/-!
Verification of the TresoldSeg module (src/TresoldSeg/TresoldSeg.py):
a shallow embedding of the parameter-node / GUI binding and gated-invocation
layer, with theorems settling the specification's claims.

Conventions of the embedding:
- MRML nodes are identified by natural-number ids; an unset node reference
  (Python `None`) is `Option.none`.
- Python floats appearing in this module (threshold values) are embedded as
  rationals (`Rat`); the module only stores, compares and adds them.
- Dynamically typed Python values flowing into the CLI request are embedded
  as `PyVal` (a number or a boolean), so that the test suite's accidental
  passing of a boolean where a float parameter is expected is representable.
- The MRML scene is the list of node ids it currently contains.
-/

namespace TresoldSeg

/-- A dynamically typed Python value as used for the CLI parameters:
either a number or a boolean. -/
inductive PyVal where
  | num (q : Rat)
  | boolean (b : Bool)
  deriving DecidableEq, Repr

/-- Python truthiness of a `PyVal` (`bool(v)`). -/
def PyVal.truthy : PyVal → Bool
  | num q => q != 0
  | boolean b => b

/-- The dictionary `cliParams` built by `TresoldSegLogic.process`
(lines 179-185): input/output node ids, the two threshold values as passed,
and the `ThresholdType` string. -/
structure CliRequest where
  inputVolume : Nat
  outputVolume : Nat
  lowerThreshold : PyVal
  upperThreshold : PyVal
  thresholdType : String
  deriving DecidableEq, Repr

/-- The observable outcome of one call to `TresoldSegLogic.process`:
the returned/raised result (`ValueError` embedded as `Except.error`),
the list of requests actually handed to `slicer.cli.run`, and the final
MRML scene contents. -/
structure ProcessOutcome where
  result : Except String CliRequest
  engineCalls : List CliRequest
  scene : List Nat
  deriving Repr

/-- A node id not present in the scene, as allocated for the transient CLI
node created by `slicer.cli.run`. -/
def freshNodeId (scene : List Nat) : Nat :=
  scene.foldr max 0 + 1

/-- `slicer.mrmlScene.RemoveNode`: the scene without the given node. -/
def removeNode (scene : List Nat) (n : Nat) : List Nat :=
  scene.filter (· ≠ n)

/-- `TresoldSegLogic.process` (lines 164-191).  Python defaults:
`invert = False`, `showResult = True`; callers passing fewer positional
arguments are embedded with those defaults spelled out.  `engineOk` is the
success/failure report of the external compute engine; the source never
branches on it. -/
def process (inputVolume outputVolume : Option Nat)
    (lowerThreshold upperThreshold : PyVal) (invert : PyVal)
    (showResult : Bool) (scene : List Nat) (engineOk : Bool) : ProcessOutcome :=
  -- if not inputVolume or not outputVolume: raise ValueError(...)
  if inputVolume.isNone || outputVolume.isNone then
    { result := .error "Input or output volume is invalid"
      engineCalls := []
      scene := scene }
  else
    let cliParams : CliRequest :=
      { inputVolume := inputVolume.getD 0
        outputVolume := outputVolume.getD 0
        lowerThreshold := lowerThreshold
        upperThreshold := upperThreshold
        -- "Between" if not invert else "Outside"
        thresholdType := if !invert.truthy then "Between" else "Outside" }
    -- cliNode = slicer.cli.run(..., cliParams, wait_for_completion=True,
    --                          update_display=showResult)
    let cliNode := freshNodeId scene
    let sceneWithCli := scene ++ [cliNode]
    -- slicer.mrmlScene.RemoveNode(cliNode)  (unconditional)
    let _ := showResult
    let _ := engineOk
    { result := .ok cliParams
      engineCalls := [cliParams]
      scene := removeNode sceneWithCli cliNode }

/-- Every member of a list of naturals is bounded by the `foldr max 0`. -/
lemma le_foldr_max (l : List Nat) : ∀ x ∈ l, x ≤ l.foldr max 0 := by
  induction l with
  | nil => intro x hx; cases hx
  | cons a t ih =>
      intro x hx
      rcases List.mem_cons.mp hx with h | h
      · subst h; exact le_max_left _ _
      · exact le_trans (ih x h) (le_max_right _ _)

/-- The freshly allocated CLI node id is not already in the scene. -/
lemma freshNodeId_not_mem (scene : List Nat) : freshNodeId scene ∉ scene := by
  intro h
  have hle := le_foldr_max scene _ h
  simp only [freshNodeId] at hle
  omega

/-- Filtering out an absent element leaves a list unchanged. -/
lemma filter_ne_of_not_mem {α : Type} [DecidableEq α] (l : List α) (a : α)
    (h : a ∉ l) : l.filter (· ≠ a) = l := by
  rw [List.filter_eq_self]
  intro b hb
  have hba : b ≠ a := fun e => h (e ▸ hb)
  simp [hba]

/-- Filtering a freshly consed element back out of a list it was absent from
restores the list. -/
lemma filter_ne_cons_self {α : Type} [DecidableEq α] (l : List α) (a : α)
    (h : a ∉ l) : (a :: l).filter (· ≠ a) = l := by
  have hstep : (a :: l).filter (· ≠ a) = l.filter (· ≠ a) := by
    simp [List.filter_cons]
  rw [hstep, filter_ne_of_not_mem l a h]

/-- Removing the fresh CLI node from the scene it was appended to restores
the original scene. -/
lemma removeNode_append_fresh (scene : List Nat) :
    removeNode (scene ++ [freshNodeId scene]) (freshNodeId scene) = scene := by
  unfold removeNode
  rw [List.filter_append,
    filter_ne_of_not_mem scene _ (freshNodeId_not_mem scene)]
  simp

/-- Embeds the first invocation performed by `TresoldSegTest.test_TresoldSeg1`
(line 219): `logic.process(inputVolume, outputVolume, threshold, True)` with
`threshold = 100`.  Python positional binding sends `threshold` to
`lowerThreshold` and `True` to `upperThreshold`; `invert` and `showResult`
keep their defaults `False` and `True`.  The scene holds the input volume
(id 1) and the freshly added output volume (id 2). -/
def testInvocation1 : ProcessOutcome :=
  process (some 1) (some 2) (PyVal.num 100) (PyVal.boolean true)
    (PyVal.boolean false) true [1, 2] true

/-- Embeds the second invocation performed by `TresoldSegTest.test_TresoldSeg1`
(line 224): `logic.process(inputVolume, outputVolume, threshold, False)`;
again `False` binds to `upperThreshold` and `invert` keeps its default. -/
def testInvocation2 : ProcessOutcome :=
  process (some 1) (some 2) (PyVal.num 100) (PyVal.boolean false)
    (PyVal.boolean false) true [1, 2] true

/-- The parameter node `TresoldSegParameterNode` (lines 47-53): two optional
volume references (node ids), two range-constrained thresholds with defaults
0 and 100, and the invert flag with default false. -/
structure TresoldSegParameterNode where
  inputVolume : Option Nat := none
  lowerThreshold : Rat := 0
  upperThreshold : Rat := 100
  invertThreshold : Bool := false
  thresholdedVolume : Option Nat := none
  deriving DecidableEq, Repr

/-- Clamping of a value to a closed range. -/
def clamp (v lo hi : Rat) : Rat :=
  max lo (min v hi)

/-- Modelled from the spec: the write behavior of the
`Annotated[float, WithinRange(-100, 500)]` fields, which is implemented by
`slicer.parameterNodeWrapper` and is not part of this repository's sources.
Per the spec, an assignment clamps silently to the declared range and marks
a pending model-changed notification exactly when the stored value changes;
pending notifications within one caller-initiated operation are coalesced
into at most one event delivered after all of that operation's writes
complete.  Returns the updated node and whether the stored value changed
(the pending-notification flag). -/
def setLowerThresholdField (s : TresoldSegParameterNode) (v : Rat) :
    TresoldSegParameterNode × Bool :=
  let v' := clamp v (-100) 500
  ({ s with lowerThreshold := v' }, decide (v' ≠ s.lowerThreshold))

/-- Modelled from the spec: write to `upperThreshold`, clamped to the same
declared range `[-100, 500]`, marking a pending model-changed notification
exactly when the stored value changes (coalesced per caller-initiated
operation as for `setLowerThresholdField`). -/
def setUpperThresholdField (s : TresoldSegParameterNode) (v : Rat) :
    TresoldSegParameterNode × Bool :=
  let v' := clamp v (-100) 500
  ({ s with upperThreshold := v' }, decide (v' ≠ s.upperThreshold))

/-- `TresoldSegWidget.onThresholdSliderChanged` (lines 140-144): when a
parameter node is bound, writes `lowerThreshold = value` and then
`upperThreshold = value + 100`; a no-op when no node is bound.  One
caller-initiated operation: returns the resulting node and the number of
model-changed events delivered after both writes complete — the pending
notifications of the two writes coalesced into at most one event, zero when
neither write changed its stored value. -/
def onThresholdSliderChanged (value : Rat) :
    Option TresoldSegParameterNode → Option TresoldSegParameterNode × Nat
  | none => (none, 0)
  | some s =>
      let (s1, c1) := setLowerThresholdField s value
      let (s2, c2) := setUpperThresholdField s1 (value + 100)
      (some s2, if c1 || c2 then 1 else 0)

/-- `TresoldSegWidget.onLowerThresholdChanged` (lines 132-134): one
caller-initiated operation writing only `lowerThreshold`; returns the
resulting node and the number of model-changed events delivered. -/
def onLowerThresholdChanged (value : Rat) :
    Option TresoldSegParameterNode → Option TresoldSegParameterNode × Nat
  | none => (none, 0)
  | some s =>
      let (s1, c1) := setLowerThresholdField s value
      (some s1, if c1 then 1 else 0)

/-- `TresoldSegWidget.onUpperThresholdChanged` (lines 136-138): one
caller-initiated operation writing only `upperThreshold`; returns the
resulting node and the number of model-changed events delivered. -/
def onUpperThresholdChanged (value : Rat) :
    Option TresoldSegParameterNode → Option TresoldSegParameterNode × Nat
  | none => (none, 0)
  | some s =>
      let (s1, c1) := setUpperThresholdField s value
      (some s1, if c1 then 1 else 0)

/-- A value already inside the closed range is left unchanged by `clamp`. -/
lemma clamp_eq_self {v lo hi : Rat} (h1 : lo ≤ v) (h2 : v ≤ hi) :
    clamp v lo hi = v := by
  unfold clamp
  rw [min_eq_left h2, max_eq_right h1]

/-- The state of the apply button set by `_checkCanApply`. -/
structure ApplyButton where
  toolTip : String
  enabled : Bool
  deriving DecidableEq, Repr

/-- `TresoldSegWidget._checkCanApply` (lines 124-130): enables the apply
button with the "Compute output volume" tooltip when a parameter node is
bound and both its volume references are set; otherwise disables it with the
"Select input and output volume nodes" tooltip. -/
def checkCanApply (pnode : Option TresoldSegParameterNode) : ApplyButton :=
  match pnode with
  | some p =>
      if p.inputVolume.isSome && p.thresholdedVolume.isSome then
        { toolTip := "Compute output volume", enabled := true }
      else
        { toolTip := "Select input and output volume nodes", enabled := false }
  | none =>
      { toolTip := "Select input and output volume nodes", enabled := false }

/-- Identifier of the `_checkCanApply` callback as registered with
`addObserver(self._parameterNode, vtk.vtkCommand.ModifiedEvent,
self._checkCanApply)`. -/
def checkCanApplyCallback : Nat := 0

/-- The widget state relevant to binding lifecycle: the bound parameter node
(with its node id), the stored GUI-connection tag, the wrapper's registry of
active GUI-connection tags, the VTK observation registry of
(observed node id, callback) pairs, and the apply button. -/
structure WidgetState where
  pnode : Option (Nat × TresoldSegParameterNode)
  parameterNodeGuiTag : Option Nat
  guiConnections : List Nat
  observers : List (Nat × Nat)
  applyButton : ApplyButton
  deriving DecidableEq, Repr

/-- `connectGui(self.ui)`: registers a fresh GUI-connection tag and returns
it together with the updated registry. -/
def connectGui (gs : List Nat) : Nat × List Nat :=
  let tag := gs.foldr max 0 + 1
  (tag, tag :: gs)

/-- `disconnectGui(tag)`: removes the connection with the given tag; a no-op
when the tag is `None` or absent. -/
def disconnectGui (tag : Option Nat) (gs : List Nat) : List Nat :=
  match tag with
  | none => gs
  | some t => gs.filter (· ≠ t)

/-- `VTKObservationMixin.addObserver`: registers the (node, callback) pair,
skipping the registration when it is already present. -/
def addObserver (obs : List (Nat × Nat)) (node cb : Nat) : List (Nat × Nat) :=
  if (node, cb) ∈ obs then obs else (node, cb) :: obs

/-- `VTKObservationMixin.removeObserver`: removes the matching
(node, callback) registrations. -/
def removeObserver (obs : List (Nat × Nat)) (node cb : Nat) :
    List (Nat × Nat) :=
  obs.filter (· ≠ (node, cb))

/-- `TresoldSegWidget.setParameterNode` (lines 114-122): disconnects the GUI
connection and removes the model-changed observer of the previously bound
node (if any), stores the new node, and, when the new node is set, connects
the GUI, registers the `_checkCanApply` observer and re-runs the gate. -/
def setParameterNode (inputParameterNode : Option (Nat × TresoldSegParameterNode))
    (w : WidgetState) : WidgetState :=
  let w1 :=
    match w.pnode with
    | some (pid, _) =>
        { w with
          guiConnections := disconnectGui w.parameterNodeGuiTag w.guiConnections
          observers := removeObserver w.observers pid checkCanApplyCallback }
    | none => w
  let w2 := { w1 with pnode := inputParameterNode }
  match inputParameterNode with
  | some (pid, p) =>
      let (tag, gs) := connectGui w2.guiConnections
      { w2 with
        parameterNodeGuiTag := some tag
        guiConnections := gs
        observers := addObserver w2.observers pid checkCanApplyCallback
        applyButton := checkCanApply (some p) }
  | none => w2

/-- `TresoldSegWidget.exit` (lines 95-99): when a node is bound, disconnects
the GUI connection, clears the stored tag and removes the `_checkCanApply`
observer (the node reference itself is kept). -/
def exit (w : WidgetState) : WidgetState :=
  match w.pnode with
  | some (pid, _) =>
      { w with
        guiConnections := disconnectGui w.parameterNodeGuiTag w.guiConnections
        parameterNodeGuiTag := none
        observers := removeObserver w.observers pid checkCanApplyCallback }
  | none => w

/-- `TresoldSegWidget.onSceneStartClose` (lines 101-102). -/
def onSceneStartClose (w : WidgetState) : WidgetState :=
  setParameterNode none w

/-- The successor of the maximum of a list of naturals is not a member. -/
lemma foldr_max_succ_not_mem (l : List Nat) : l.foldr max 0 + 1 ∉ l := by
  intro h
  have hle := le_foldr_max l _ h
  omega

/-- The view-layer state read by `onApplyButton`: the two selector nodes,
the two threshold sliders and the invert checkbox. -/
structure UIState where
  inputSelector : Option Nat
  outputSelector : Option Nat
  lowerSliderValue : Rat
  upperSliderValue : Rat
  invertChecked : Bool
  deriving DecidableEq, Repr

/-- Application state around an invocation: the view state, the bound
parameter node, the scene, and the request of the in-flight engine call. -/
structure AppState where
  ui : UIState
  pnode : Option TresoldSegParameterNode
  scene : List Nat
  inFlightRequest : Option CliRequest
  deriving Repr

/-- `TresoldSegWidget.onApplyButton` (lines 146-154): reads the selector
nodes, the slider values and the checkbox at call time and passes them (by
value) to `TresoldSegLogic.process`; the request of the resulting engine
call, if any, becomes the in-flight request. -/
def onApplyButton (engineOk : Bool) (a : AppState) : AppState :=
  let out := process a.ui.inputSelector a.ui.outputSelector
    (PyVal.num a.ui.lowerSliderValue) (PyVal.num a.ui.upperSliderValue)
    (PyVal.boolean a.ui.invertChecked) true a.scene engineOk
  { a with scene := out.scene, inFlightRequest := out.result.toOption }

/-- An edit of one parameter-model field, as can occur after the invocation
snapshot has been taken; the binder pushes the written value back into the
corresponding control. -/
inductive ModelEdit where
  | setLower (v : Rat)
  | setUpper (v : Rat)
  | setInvert (b : Bool)
  | setInput (n : Option Nat)
  | setOutput (n : Option Nat)
  deriving DecidableEq, Repr

/-- Applies a model edit: writes the parameter-node field (thresholds through
their clamping setter) and mirrors the new value into the bound control; a
no-op when no node is bound.  The in-flight request is not touched. -/
def applyModelEdit (a : AppState) (e : ModelEdit) : AppState :=
  match a.pnode with
  | none => a
  | some s =>
    match e with
    | .setLower v =>
        let s' := (setLowerThresholdField s v).1
        { a with pnode := some s',
                 ui := { a.ui with lowerSliderValue := s'.lowerThreshold } }
    | .setUpper v =>
        let s' := (setUpperThresholdField s v).1
        { a with pnode := some s',
                 ui := { a.ui with upperSliderValue := s'.upperThreshold } }
    | .setInvert b =>
        { a with pnode := some { s with invertThreshold := b },
                 ui := { a.ui with invertChecked := b } }
    | .setInput n =>
        { a with pnode := some { s with inputVolume := n },
                 ui := { a.ui with inputSelector := n } }
    | .setOutput n =>
        { a with pnode := some { s with thresholdedVolume := n },
                 ui := { a.ui with outputSelector := n } }

end TresoldSeg

open TresoldSeg

/-- C2: every request handed to the compute engine by `process` carries
`ThresholdType = "Between"` when the invert flag is false and `"Outside"`
when it is true, with the lower and upper threshold values passed through
unchanged. -/
theorem C2_invocation_mode_mapping (i o : Nat) (lower upper : PyVal)
    (invert showResult : Bool) (scene : List Nat) (engineOk : Bool) :
    (process (some i) (some o) lower upper (PyVal.boolean invert) showResult
        scene engineOk).engineCalls =
      [{ inputVolume := i
         outputVolume := o
         lowerThreshold := lower
         upperThreshold := upper
         thresholdType := if invert then "Outside" else "Between" }] := by
  cases invert <;> simp [process, PyVal.truthy]

/-- C3: calling `process` with an unset input or output handle signals the
precondition error `ValueError("Input or output volume is invalid")` and the
external compute engine is never invoked. -/
theorem C3_blocked_invocation_rejected (inputVolume outputVolume : Option Nat)
    (lower upper invert : PyVal) (showResult : Bool) (scene : List Nat)
    (engineOk : Bool)
    (h : inputVolume = none ∨ outputVolume = none) :
    (process inputVolume outputVolume lower upper invert showResult scene
        engineOk).result = .error "Input or output volume is invalid" ∧
    (process inputVolume outputVolume lower upper invert showResult scene
        engineOk).engineCalls = [] := by
  rcases h with h | h <;> subst h <;> simp [process]

/-- Witness for C3 at a concrete blocked state: input handle unset, output
handle set. -/
theorem C3_blocked_invocation_rejected_witness :
    (process none (some 2) (PyVal.num 100) (PyVal.num 200)
        (PyVal.boolean false) true [2] true).result =
      .error "Input or output volume is invalid" ∧
    (process none (some 2) (PyVal.num 100) (PyVal.num 200)
        (PyVal.boolean false) true [2] true).engineCalls = [] :=
  C3_blocked_invocation_rejected none (some 2) (PyVal.num 100) (PyVal.num 200)
    (PyVal.boolean false) true [2] true (Or.inl rfl)

/-- C7: for every invocation that reaches the engine, the transient CLI
tracking node is removed from the scene after the engine returns, whether the
engine reports success or failure: the final scene equals the initial scene,
so tracking nodes never accumulate across repeated invocations. -/
theorem C7_tracking_node_released (i o : Nat) (lower upper invert : PyVal)
    (showResult : Bool) (scene : List Nat) (engineOk : Bool) :
    (process (some i) (some o) lower upper invert showResult scene
        engineOk).scene = scene := by
  simp [process, removeNode_append_fresh]

/-- C9: the test `test_TresoldSeg1` never invokes the Outside mode.  Its two
calls pass `True` / `False` as the fourth positional argument, which binds to
`upperThreshold` (not `invert`), so both requests sent to the engine carry
`ThresholdType = "Between"`, a boolean upper threshold, and an unchanged
lower threshold of 100 — not the `Outside(100, 100)` / `Between(100, 100)`
pair with `invert = true` / `false` that the claim describes. -/
theorem C9_test_invocations_not_as_claimed :
    testInvocation1.engineCalls =
      [{ inputVolume := 1
         outputVolume := 2
         lowerThreshold := PyVal.num 100
         upperThreshold := PyVal.boolean true
         thresholdType := "Between" }] ∧
    testInvocation2.engineCalls =
      [{ inputVolume := 1
         outputVolume := 2
         lowerThreshold := PyVal.num 100
         upperThreshold := PyVal.boolean false
         thresholdType := "Between" }] := by
  exact ⟨by simp [testInvocation1, process, PyVal.truthy],
    by simp [testInvocation2, process, PyVal.truthy]⟩

/-- C1: for every parameter-model state, the gate re-evaluation enables the
apply button with the "Compute output volume" tooltip exactly when both
`inputVolume` and `thresholdedVolume` are set, and otherwise disables it
with the "Select input and output volume nodes" reason. -/
theorem C1_validity_gate (p : TresoldSegParameterNode) :
    (checkCanApply (some p)).enabled
        = (p.inputVolume.isSome && p.thresholdedVolume.isSome) ∧
    (checkCanApply (some p)).toolTip
        = (if p.inputVolume.isSome && p.thresholdedVolume.isSome
           then "Compute output volume"
           else "Select input and output volume nodes") := by
  cases h : (p.inputVolume.isSome && p.thresholdedVolume.isSome) <;>
    simp [checkCanApply, h]

/-- C4: every assignment to `lowerThreshold` or `upperThreshold` stores
exactly `clamp(v, -100, 500)` for the declared range `WithinRange(-100, 500)`,
and the stored value is never out of range. -/
theorem C4_threshold_clamping (v : Rat) (s : TresoldSegParameterNode) :
    ((setLowerThresholdField s v).1.lowerThreshold = clamp v (-100) 500 ∧
      -100 ≤ (setLowerThresholdField s v).1.lowerThreshold ∧
      (setLowerThresholdField s v).1.lowerThreshold ≤ 500) ∧
    ((setUpperThresholdField s v).1.upperThreshold = clamp v (-100) 500 ∧
      -100 ≤ (setUpperThresholdField s v).1.upperThreshold ∧
      (setUpperThresholdField s v).1.upperThreshold ≤ 500) := by
  have h1 : (-100 : Rat) ≤ clamp v (-100) 500 := le_max_left _ _
  have h2 : clamp v (-100) 500 ≤ 500 := by
    apply max_le
    · norm_num
    · exact min_le_right _ _
  exact ⟨⟨rfl, h1, h2⟩, ⟨rfl, h1, h2⟩⟩

/-- C5: the combined-threshold slider handler — one caller-initiated
operation writing both thresholds — delivers at most one model-changed event,
after both writes complete, and exactly zero when neither write changes its
stored value; a single-field handler writing a field's current (in-range)
value delivers zero events. -/
theorem C5_event_coalescing (v : Rat) (s : TresoldSegParameterNode)
    (hl1 : -100 ≤ s.lowerThreshold) (hl2 : s.lowerThreshold ≤ 500)
    (hu1 : -100 ≤ s.upperThreshold) (hu2 : s.upperThreshold ≤ 500) :
    (onThresholdSliderChanged v (some s)).2 ≤ 1 ∧
    ((onThresholdSliderChanged v (some s)).2 = 0 ↔
      (clamp v (-100) 500 = s.lowerThreshold ∧
        clamp (v + 100) (-100) 500 = s.upperThreshold)) ∧
    (onLowerThresholdChanged s.lowerThreshold (some s)).2 = 0 ∧
    (onUpperThresholdChanged s.upperThreshold (some s)).2 = 0 := by
  refine ⟨?_, ?_, ?_, ?_⟩
  · simp only [onThresholdSliderChanged, setLowerThresholdField,
      setUpperThresholdField]
    split <;> omega
  · simp only [onThresholdSliderChanged, setLowerThresholdField,
      setUpperThresholdField]
    split <;> simp_all
    tauto
  · simp [onLowerThresholdChanged, setLowerThresholdField,
      clamp_eq_self hl1 hl2]
  · simp [onUpperThresholdChanged, setUpperThresholdField,
      clamp_eq_self hu1 hu2]

/-- Witness for C5 at the default parameter-node state (`lowerThreshold = 0`,
`upperThreshold = 100`) and slider value 50: the operation delivers at most
one event although both writes change their field, and writing the current
values delivers none. -/
theorem C5_event_coalescing_witness :
    (onThresholdSliderChanged 50 (some ({} : TresoldSegParameterNode))).2 ≤ 1 ∧
    ((onThresholdSliderChanged 50 (some ({} : TresoldSegParameterNode))).2 = 0 ↔
      (clamp 50 (-100) 500 = ({} : TresoldSegParameterNode).lowerThreshold ∧
        clamp (50 + 100) (-100) 500 =
          ({} : TresoldSegParameterNode).upperThreshold)) ∧
    (onLowerThresholdChanged ({} : TresoldSegParameterNode).lowerThreshold
        (some ({} : TresoldSegParameterNode))).2 = 0 ∧
    (onUpperThresholdChanged ({} : TresoldSegParameterNode).upperThreshold
        (some ({} : TresoldSegParameterNode))).2 = 0 :=
  C5_event_coalescing 50 {} (by norm_num) (by norm_num) (by norm_num)
    (by norm_num)

/-- C10: a combined-slider edit with value `v` while a parameter node is
bound stores `clamp(v)` into `lowerThreshold` and `clamp(v + 100)` into
`upperThreshold` (range `[-100, 500]`); with no node bound the edit is a
no-op. -/
theorem C10_linked_slider_offset (v : Rat) (s : TresoldSegParameterNode) :
    (onThresholdSliderChanged v (some s)).1 =
      some { s with lowerThreshold := clamp v (-100) 500,
                    upperThreshold := clamp (v + 100) (-100) 500 } ∧
    onThresholdSliderChanged v none = (none, 0) := by
  constructor
  · simp [onThresholdSliderChanged, setLowerThresholdField,
      setUpperThresholdField]
  · rfl

/-- C6: the parameters of the in-flight engine call are exactly the ones read
at call time — the request recorded by `onApplyButton` is built from the
selector, slider and checkbox values at the moment of the call, and no
sequence of later model edits changes it. -/
theorem C6_snapshot_semantics (a : AppState) (engineOk : Bool)
    (edits : List ModelEdit) :
    (edits.foldl applyModelEdit (onApplyButton engineOk a)).inFlightRequest =
      (process a.ui.inputSelector a.ui.outputSelector
        (PyVal.num a.ui.lowerSliderValue) (PyVal.num a.ui.upperSliderValue)
        (PyVal.boolean a.ui.invertChecked) true a.scene
        engineOk).result.toOption := by
  have hpres : ∀ (es : List ModelEdit) (st : AppState),
      (es.foldl applyModelEdit st).inFlightRequest = st.inFlightRequest := by
    intro es
    induction es with
    | nil => intro st; rfl
    | cons e t ih =>
        intro st
        rw [List.foldl_cons, ih]
        cases h : st.pnode <;> cases e <;> simp [applyModelEdit, h]
  rw [hpres]
  rfl

/-- C8: detaching on view-exit or on document clear-start while a binding is
attached removes the GUI connection and the model-changed observer that the
attach created: both registries return to their pre-attach baseline. -/
theorem C8_lifecycle_detach (w : WidgetState) (pid : Nat)
    (p : TresoldSegParameterNode)
    (hp : w.pnode = none)
    (hobs : (pid, checkCanApplyCallback) ∉ w.observers) :
    ((TresoldSeg.exit (setParameterNode (some (pid, p)) w)).guiConnections =
        w.guiConnections ∧
      (TresoldSeg.exit (setParameterNode (some (pid, p)) w)).observers =
        w.observers) ∧
    ((onSceneStartClose (setParameterNode (some (pid, p)) w)).guiConnections =
        w.guiConnections ∧
      (onSceneStartClose (setParameterNode (some (pid, p)) w)).observers =
        w.observers) := by
  simp only [TresoldSeg.exit, onSceneStartClose, setParameterNode, connectGui,
    disconnectGui, addObserver, removeObserver, hp, if_neg hobs]
  have h1 := filter_ne_cons_self w.guiConnections _
    (foldr_max_succ_not_mem w.guiConnections)
  have h2 := filter_ne_cons_self w.observers _ hobs
  exact ⟨⟨h1, h2⟩, h1, h2⟩

/-- Witness for C8 at a concrete baseline: an unattached widget with empty
registries, parameter node id 7. -/
theorem C8_lifecycle_detach_witness :
    ((TresoldSeg.exit (setParameterNode (some (7, {}))
        ⟨none, none, [], [], ⟨"", false⟩⟩)).guiConnections = [] ∧
      (TresoldSeg.exit (setParameterNode (some (7, {}))
        ⟨none, none, [], [], ⟨"", false⟩⟩)).observers = []) ∧
    ((onSceneStartClose (setParameterNode (some (7, {}))
        ⟨none, none, [], [], ⟨"", false⟩⟩)).guiConnections = [] ∧
      (onSceneStartClose (setParameterNode (some (7, {}))
        ⟨none, none, [], [], ⟨"", false⟩⟩)).observers = []) :=
  C8_lifecycle_detach ⟨none, none, [], [], ⟨"", false⟩⟩ 7 {} rfl (by simp)
